import Mathlib

/-!
Verification of the AgML metadata registry (`agml/data/metadata.py`) and the
validated parameter store (`agml/synthetic/options.py`) against their
natural-language specification.  Python runtime values are shallowly embedded
as the inductive `PyVal`; Python dictionaries are embedded as insertion-ordered
association lists with unique keys, so `lookup` is first-match and update
rewrites in place.
-/

/-- Scalar Python values: `None`, numbers (int and float, embedded as
rationals), strings, and `pathlib.Path`-style path objects. -/
inductive PyPrim where
  | pnone
  | pnum (q : ℚ)
  | pstr (s : String)
  | ppath (p : String)
deriving DecidableEq

/-- A Python value one level inside a top-level dictionary.  Per the source
table format (spec section 6) such a value is a scalar (class label, country
name), a list of scalars (image statistics), or a flat mapping (a class
grouping mapping index strings to labels).  Dictionaries are embedded as
insertion-ordered association lists with unique keys, the JSON/YAML-loaded
shape. -/
inductive PyMid where
  | mprim (p : PyPrim)
  | mlist (xs : List PyPrim)
  | mdict (entries : List (String × PyPrim))
deriving DecidableEq

/-- A top-level Python value: a value of a metadata attribute or a value
assigned to a parameter-store field.  Scalars, lists of scalars, and (per the
source table format) at most two-level mappings. -/
inductive PyVal where
  | prim (p : PyPrim)
  | vlist (xs : List PyPrim)
  | vdict (entries : List (String × PyMid))
deriving DecidableEq

/-- The declared field annotations appearing in the `Parameters` dataclasses of
`agml/synthetic/options.py`: `Number`, `str`, `List[Number]`, `os.PathLike`. -/
inductive PyType where
  | number
  | pstr
  | listNumber
  | pathLike
deriving DecidableEq

/-- Result of Python's `isinstance(value, annotation)` for the annotations used
in `Parameters.__setattr__` (options.py line 43).  `Number`, `str` and
`os.PathLike` are ordinary classes and the check returns a boolean; the
subscripted generic `List[Number]` is a `typing._GenericAlias`, whose
`__instancecheck__` unconditionally raises
`TypeError: Subscripted generics cannot be used with class and instance
checks`, which we embed as `Except.error`. -/
def isinstanceCheck (v : PyVal) : PyType → Except Unit Bool
  | .number => .ok (match v with | .prim (.pnum _) => true | _ => false)
  | .pstr => .ok (match v with | .prim (.pstr _) => true | _ => false)
  | .listNumber => .error ()
  | .pathLike => .ok (match v with | .prim (.ppath _) => true | _ => false)

/-- A sealed `Parameters` dataclass instance (options.py lines 26-47):
`schema` is the class-level `__annotations__` mapping and `values` is the
instance `__dict__` restricted to the declared fields (the internal
`_block_new_attributes` sentinel is represented by the store being sealed). -/
structure ParamStore where
  schema : List (String × PyType)
  values : List (String × PyVal)
deriving DecidableEq

/-- Errors that `Parameters.__setattr__` can raise after sealing. -/
inductive SetErr where
  | attributeError (key : String)
  | typeMismatch (key : String)
  | subscriptedGenericTypeError (key : String)
  | missingDeclaredType (key : String)
deriving DecidableEq

/-- Both `typeMismatch` (the dataclass's own raise at options.py lines 44-46)
and `subscriptedGenericTypeError` (raised inside `isinstance` for
`List[Number]` annotations) are Python `TypeError` instances. -/
def SetErr.isTypeError : SetErr → Bool
  | .typeMismatch _ => true
  | .subscriptedGenericTypeError _ => true
  | _ => false

/-- Python dict value update: the key is already present, its value is
rewritten in place and insertion order is preserved. -/
def updateAssoc (l : List (String × PyVal)) (k : String) (v : PyVal) :
    List (String × PyVal) :=
  l.map (fun p => if p.1 = k then (k, v) else p)

/-- `Parameters.__setattr__` (options.py lines 32-47) on a sealed instance:
a key outside the instance `__dict__` raises `AttributeError` (the sentinel
`_block_new_attributes` is present from `__post_init__` on, so this applies
from the very first post-seal assignment); otherwise the class annotation is
fetched and `isinstance(value, annotation)` decides between storing the value
and raising `TypeError`. -/
def psSetattr (s : ParamStore) (key : String) (v : PyVal) :
    Except SetErr ParamStore :=
  match s.values.lookup key with
  | none => .error (.attributeError key)
  | some _ =>
    match s.schema.lookup key with
    | none => .error (.missingDeclaredType key)
    | some ty =>
      match isinstanceCheck v ty with
      | .error _ => .error (.subscriptedGenericTypeError key)
      | .ok true => .ok { s with values := updateAssoc s.values key v }
      | .ok false => .error (.typeMismatch key)

/-- Reading a field of a sealed `Parameters` instance: plain `__dict__`
lookup. -/
def psGetattr (s : ParamStore) (key : String) : Option PyVal :=
  s.values.lookup key

/-- Dataclass construction errors. -/
inductive ConstructErr where
  | unexpectedKeyword
deriving DecidableEq

/-- Dataclass construction `Cls(**defaults)` followed by `__post_init__`
sealing: a keyword outside the declared fields raises `TypeError`; otherwise
every declared field is assigned its keyword value or its declared default
`None` (these constructor assignments bypass the type check because the field
is not yet in `__dict__` and the sentinel is unset, options.py lines 34-37). -/
def constructParams (schema : List (String × PyType))
    (defaults : List (String × PyVal)) : Except ConstructErr ParamStore :=
  if defaults.all (fun p => (schema.lookup p.1).isSome) then
    .ok ⟨schema,
         schema.map (fun p => (p.1, (defaults.lookup p.1).getD (.prim .pnone)))⟩
  else
    .error .unexpectedKeyword

/-- The declared fields of `CanopyParameters` (options.py lines 50-110), in
declaration order, with their annotations. -/
def canopySchema : List (String × PyType) :=
  [("leaf_length", .number),
   ("leaf_width", .number),
   ("leaf_size", .number),
   ("leaf_subdivisions", .listNumber),
   ("leaf_texture_file", .pstr),
   ("leaf_color", .pstr),
   ("leaf_angle_distribution", .pstr),
   ("leaf_area_index", .number),
   ("leaf_area_density", .number),
   ("leaf_spacing_fraction", .number),
   ("stem_color", .listNumber),
   ("stem_subdivisions", .number),
   ("stems_per_plant", .number),
   ("stem_radius", .number),
   ("plant_height", .number),
   ("grape_radius", .number),
   ("grape_color", .listNumber),
   ("grape_subdivisions", .number),
   ("fruit_color", .listNumber),
   ("fruit_radius", .number),
   ("fruit_subdivisions", .number),
   ("fruit_texture_file", .pathLike),
   ("wood_texture_file", .pathLike),
   ("wood_subdivisions", .number),
   ("clusters_per_stem", .number),
   ("plant_spacing", .number),
   ("row_spacing", .number),
   ("level_spacing", .number),
   ("plant_count", .listNumber),
   ("canopy_origin", .listNumber),
   ("canopy_rotation", .number),
   ("canopy_height", .number),
   ("canopy_extent", .listNumber),
   ("canopy_configuration", .pstr),
   ("base_height", .number),
   ("crown_radius", .number),
   ("cluster_radius", .number),
   ("cluster_height_max", .number),
   ("trunk_height", .number),
   ("trunk_radius", .number),
   ("cordon_height", .number),
   ("cordon_radius", .number),
   ("cordon_spacing", .number),
   ("shoot_length", .number),
   ("shoot_radius", .number),
   ("shoots_per_cordon", .number),
   ("shoot_angle", .number),
   ("shoot_angle_tip", .number),
   ("shoot_angle_base", .number),
   ("shoot_color", .listNumber),
   ("shoot_subdivisions", .listNumber),
   ("needle_width", .number),
   ("needle_length", .number),
   ("needle_color", .listNumber),
   ("needle_subdivisions", .listNumber),
   ("branch_length", .number),
   ("branches_per_level", .number),
   ("buffer", .pstr)]

/-- The declared fields of `CameraParameters` (options.py lines 113-118). -/
def cameraSchema : List (String × PyType) :=
  [("image_resolution", .listNumber),
   ("camera_position", .listNumber),
   ("camera_lookat", .listNumber)]

/-- The declared fields of `LiDARParameters` (options.py lines 121-132). -/
def lidarSchema : List (String × PyType) :=
  [("origin", .listNumber),
   ("size", .listNumber),
   ("thetaMin", .number),
   ("thetaMax", .number),
   ("phiMin", .number),
   ("phiMax", .number),
   ("exitDiameter", .number),
   ("beamDivergence", .number),
   ("ASCII_format", .pstr)]

/-- Modelled from the spec: `load_default_helios_configuration`
(`agml/synthetic/config.py`, not under `src/`) returns the static
default-configuration table (spec section 6): the list of valid canopy types,
per-canopy-type canopy field defaults, and a single shared default each for
camera and LiDAR.  It is loaded once as the class-level
`HeliosOptions._default_config` and never mutated, so the same value is seen
by construction and by `reset`. -/
structure HeliosConfig where
  canopyTypes : List String
  canopyDefaults : List (String × List (String × PyVal))
  cameraDefaults : List (String × PyVal)
  lidarDefaults : List (String × PyVal)

/-- The state of a `HeliosOptions` instance (options.py lines 135-201):
the stored canopy name and the three sub-stores exposed through the
`canopy`, `camera` and `lidar` read-only properties. -/
structure HeliosState where
  canopy : String
  canopyParams : ParamStore
  cameraParams : ParamStore
  lidarParams : ParamStore

/-- Errors raised by `HeliosOptions._initialize_canopy`
(options.py lines 170-185). -/
inductive HeliosErr where
  | invalidCanopy (c : String) (valid : List String)
  | missingDefaults (c : String)
  | constructError (e : ConstructErr)
deriving DecidableEq

/-- `HeliosOptions._initialize_canopy` (options.py lines 170-185): validate
the canopy name against the configuration's type list, then build the three
sub-stores from the configuration's defaults (canopy defaults keyed by the
canopy type; camera and LiDAR defaults shared). -/
def initializeCanopy (cfg : HeliosConfig) (canopy : String) :
    Except HeliosErr HeliosState :=
  if cfg.canopyTypes.contains canopy then
    match cfg.canopyDefaults.lookup canopy with
    | none => .error (.missingDefaults canopy)
    | some d =>
      match constructParams canopySchema d,
            constructParams cameraSchema cfg.cameraDefaults,
            constructParams lidarSchema cfg.lidarDefaults with
      | .ok cp, .ok cam, .ok lid => .ok ⟨canopy, cp, cam, lid⟩
      | .error e, _, _ => .error (.constructError e)
      | _, .error e, _ => .error (.constructError e)
      | _, _, .error e => .error (.constructError e)
  else
    .error (.invalidCanopy canopy cfg.canopyTypes)

/-- `HeliosOptions.reset` (options.py lines 199-201): re-run
`_initialize_canopy` on the stored canopy name against the same class-level
configuration. -/
def heliosReset (cfg : HeliosConfig) (st : HeliosState) :
    Except HeliosErr HeliosState :=
  initializeCanopy cfg st.canopy

/-- Selector for the three sub-stores of a `HeliosOptions` instance. -/
inductive SubStore where
  | canopy
  | camera
  | lidar
deriving DecidableEq

/-- A field assignment through one of the `HeliosOptions` sub-store views,
e.g. `opts.canopy.plant_spacing = v`: the property returns the sub-store and
the assignment runs `Parameters.__setattr__` on it. -/
def heliosSet (st : HeliosState) (sub : SubStore) (key : String) (v : PyVal) :
    Except SetErr HeliosState :=
  match sub with
  | .canopy =>
      (psSetattr st.canopyParams key v).map (fun s => { st with canopyParams := s })
  | .camera =>
      (psSetattr st.cameraParams key v).map (fun s => { st with cameraParams := s })
  | .lidar =>
      (psSetattr st.lidarParams key v).map (fun s => { st with lidarParams := s })

/-- Apply a finite sequence of field mutations; `none` when one of them
raises. -/
def applyMuts (st : HeliosState) :
    List (SubStore × String × PyVal) → Option HeliosState
  | [] => some st
  | m :: ms =>
    match heliosSet st m.1 m.2.1 m.2.2 with
    | .ok st' => applyMuts st' ms
    | .error _ => none

/-- Python `name.replace('-', '_')` (metadata.py lines 100-107): every hyphen
is replaced by an underscore. -/
def underscoreName (s : String) : String :=
  ⟨s.data.map (fun c => if c = '-' then '_' else c)⟩

/-- Fuelled Levenshtein recursion; the fuel only bounds the recursion depth
and is always sufficient when it starts at the summed lengths. -/
def editDistFuel : Nat → List Char → List Char → Nat
  | _, [], ys => ys.length
  | _, x :: xs, [] => (x :: xs).length
  | 0, _, _ => 0
  | fuel + 1, x :: xs, y :: ys =>
    if x = y then editDistFuel fuel xs ys
    else 1 + min (min (editDistFuel fuel xs (y :: ys))
                      (editDistFuel fuel (x :: xs) ys))
                 (editDistFuel fuel xs ys)

/-- Levenshtein edit distance between two character lists, used to model the
fuzzy nearest-match suggestions. -/
def editDist (a b : List Char) : Nat :=
  editDistFuel (a.length + b.length) a b

/-- Modelled from the spec: `maybe_you_meant` (`agml/utils/general.py`, not
under `src/`) appends a fuzzy-matched suggestion list of nearest-matching
known names to an error message (spec sections 4.1 and 7).  We model the
suggestion list it computes: the source keys within edit distance 2 of the
requested name, so that any near-match (e.g. one-character edit distance)
produces at least one suggestion. -/
def maybeYouMeant (name : String) (source : List String) : List String :=
  source.filter (fun k => editDist name.data k.data ≤ 2)

/-- Errors raised by `DatasetMetadata._load_source_info`
(metadata.py lines 93-114). -/
inductive LoadErr where
  | invalidName (name : String) (suggestions : List String)
  | citationKeyError (name : String)
deriving DecidableEq

/-- A dataset source table: dataset name to attribute table (the shape of
`load_public_sources()` / `load_citation_sources()`, plain mappings loaded
from static JSON).  The table contents are not under `src/`; theorems
quantify over tables of this shape. -/
def SourceTable : Type := List (String × List (String × PyVal))

/-- The constructed `DatasetMetadata` object (metadata.py lines 46-114):
canonical name, attribute table, citation table. -/
structure DatasetMeta where
  name : String
  metadata : List (String × PyVal)
  citationMeta : List (String × PyVal)
deriving DecidableEq

/-- `DatasetMetadata._load_source_info` (metadata.py lines 93-114): resolve
the name against the source table; if absent, retry with hyphens replaced by
underscores (logging a one-time notice); if both fail, raise `ValueError`
with the `maybe_you_meant` suggestions over the source keys.  On success the
citation table is indexed with the resolved name through a plain dictionary
lookup (`load_citation_sources()[name]`, line 114), so a name absent from the
citation table raises a bare `KeyError`. -/
def loadSourceInfo (src cit : SourceTable) (name : String) :
    Except LoadErr DatasetMeta :=
  match src.lookup name with
  | some entry =>
    match cit.lookup name with
    | some centry => .ok ⟨name, entry, centry⟩
    | none => .error (.citationKeyError name)
  | none =>
    match src.lookup (underscoreName name) with
    | some entry =>
      match cit.lookup (underscoreName name) with
      | some centry => .ok ⟨underscoreName name, entry, centry⟩
      | none => .error (.citationKeyError (underscoreName name))
    | none =>
      .error (.invalidName name (maybeYouMeant name (src.map Prod.fst)))

/-- `DatasetMetadata.__eq__` (metadata.py lines 84-87) between two registry
instances: equality of canonical names. -/
def metaEq (a b : DatasetMeta) : Bool :=
  a.name == b.name

/-- A Python object a registry may be compared against: another registry
instance, or any non-registry value. -/
inductive PyObject where
  | dmeta (m : DatasetMeta)
  | raw (v : PyVal)

/-- `DatasetMetadata.__eq__` (metadata.py lines 84-87): `isinstance(other,
DatasetMetadata)` guards the name comparison and every other operand returns
`False`. -/
def metaEqPy (m : DatasetMeta) : PyObject → Bool
  | .dmeta m' => m.name == m'.name
  | .raw _ => false

/-- `DatasetMetadata.__str__` (metadata.py lines 78-79). -/
def metaStr (m : DatasetMeta) : String := m.name

/-- `DatasetMetadata.__repr__` (metadata.py lines 75-76). -/
def metaRepr (m : DatasetMeta) : String := m.name

/-- Errors raised by the derived-property accessors of `DatasetMetadata`. -/
inductive MetaErr where
  | missingMetadata (dataset : String) (key : String)
  | strHasNoKeys (classType : String)
  | valueError (key : String)
  | notAMapping
deriving DecidableEq

/-- Python `int(float(s))` on a decimal string literal, as used to coerce
class-index keys (metadata.py lines 183, 188, 198, 203): optional minus sign,
digits with at most one decimal point, truncated toward zero; any other form
raises `ValueError` inside `float`.  (Exponent and infinity forms never occur
as index keys and are treated as parse failures.) -/
def parseDecimalTrunc (s : String) : Option Int :=
  match s.data with
  | '-' :: rest => (parseDecimalCore rest).map (fun n => -(n : Int))
  | cs => (parseDecimalCore cs).map (fun n => (n : Int))
where
  parseDecimalCore (cs : List Char) : Option Nat :=
    match cs.splitOn '.' with
    | [ip] =>
      if ip.isEmpty || !ip.all Char.isDigit then none
      else some (ip.foldl (fun acc c => acc * 10 + (c.toNat - 48)) 0)
    | [ip, fp] =>
      if (ip.isEmpty && fp.isEmpty) || !ip.all Char.isDigit
          || !fp.all Char.isDigit then none
      else some (ip.foldl (fun acc c => acc * 10 + (c.toNat - 48)) 0)
    | _ => none

/-- The list comprehension `[int(float(i)) for i in mapping.keys()]`: coerce
every key, propagating the first `ValueError`. -/
def coerceNums : List String → Except MetaErr (List Int)
  | [] => .ok []
  | k :: ks =>
    match parseDecimalTrunc k with
    | some n => (coerceNums ks).map (fun ns => n :: ns)
    | none => .error (.valueError k)

/-- Modelled from the spec: `has_nested_dicts` (`agml/utils/general.py`, not
under `src/`) reports whether any value of the mapping is itself a dictionary
(the flat-versus-grouped class-mapping distinction, spec section 4.1). -/
def hasNestedDicts (m : List (String × PyMid)) : Bool :=
  m.any (fun p => match p.2 with | .mdict _ => true | _ => false)

/-- Result shape of `DatasetMetadata.num_to_class`: a flat index-to-label
mapping, or one mapping per class grouping. -/
inductive N2CGroup where
  | dict (l : List (Int × PyPrim))
  | passthru (v : PyMid)
deriving DecidableEq

/-- Result shape of `DatasetMetadata.num_to_class` at top level. -/
inductive N2CResult where
  | flat (l : List (Int × PyMid))
  | grouped (l : List (String × N2CGroup))
deriving DecidableEq

/-- Result shape of `DatasetMetadata.class_to_num` per class grouping. -/
inductive C2NGroup where
  | dict (l : List (PyPrim × Int))
  | passthru (v : PyMid)
deriving DecidableEq

/-- Result shape of `DatasetMetadata.class_to_num` at top level. -/
inductive C2NResult where
  | flat (l : List (PyMid × Int))
  | grouped (l : List (String × C2NGroup))
deriving DecidableEq

/-- The nested branch of `DatasetMetadata.num_to_class` (metadata.py lines
180-187).  For a `class_type` whose value is a dictionary, line 183 evaluates
`mapping[class_type.keys()]` — `.keys()` called on the string `class_type` —
so the first dictionary-valued grouping raises `AttributeError: 'str' object
has no attribute 'keys'` before anything is built (the parallel branch of
`class_to_num` at line 198 correctly writes `mapping[class_type].keys()`).
Non-dictionary values are passed through unchanged. -/
def numToClassNestedLoop :
    List (String × PyMid) → Except MetaErr (List (String × N2CGroup))
  | [] => .ok []
  | (k, .mdict _) :: _ => .error (.strHasNoKeys k)
  | (k, v) :: rest =>
    (numToClassNestedLoop rest).map (fun out => (k, .passthru v) :: out)

/-- `DatasetMetadata.num_to_class` on the `classes` mapping (metadata.py
lines 177-189): grouped branch when any value is a dictionary, otherwise
`dict(zip([int(float(i)) for i in mapping.keys()], mapping.values()))`. -/
def numToClassOfMapping (m : List (String × PyMid)) :
    Except MetaErr N2CResult :=
  if hasNestedDicts m then
    (numToClassNestedLoop m).map .grouped
  else
    (coerceNums (m.map Prod.fst)).map
      (fun nums => .flat (nums.zip (m.map Prod.snd)))

/-- The nested branch of `DatasetMetadata.class_to_num` (metadata.py lines
195-202): each dictionary-valued grouping becomes
`dict(zip(mapping[class_type].values(), nums))`; other values pass through. -/
def classToNumGroups :
    List (String × PyMid) → Except MetaErr (List (String × C2NGroup))
  | [] => .ok []
  | (k, .mdict d) :: rest => do
    let nums ← coerceNums (d.map Prod.fst)
    let out ← classToNumGroups rest
    .ok ((k, .dict ((d.map Prod.snd).zip nums)) :: out)
  | (k, v) :: rest =>
    (classToNumGroups rest).map (fun out => (k, .passthru v) :: out)

/-- `DatasetMetadata.class_to_num` on the `classes` mapping (metadata.py
lines 191-204). -/
def classToNumOfMapping (m : List (String × PyMid)) :
    Except MetaErr C2NResult :=
  if hasNestedDicts m then
    (classToNumGroups m).map .grouped
  else
    (coerceNums (m.map Prod.fst)).map
      (fun nums => .flat ((m.map Prod.snd).zip nums))

/-- The `num_to_class` property (metadata.py lines 176-189): fetch `classes`
through the `_MetadataDict` (a missing key raises the descriptive custom
`KeyError`) and feed the mapping to the flat/grouped computation. -/
def numToClassProp (dm : DatasetMeta) : Except MetaErr N2CResult :=
  match dm.metadata.lookup "classes" with
  | none => .error (.missingMetadata dm.name "classes")
  | some (.vdict m) => numToClassOfMapping m
  | some _ => .error .notAMapping

/-- The `class_to_num` property (metadata.py lines 191-204). -/
def classToNumProp (dm : DatasetMeta) : Except MetaErr C2NResult :=
  match dm.metadata.lookup "classes" with
  | none => .error (.missingMetadata dm.name "classes")
  | some (.vdict m) => classToNumOfMapping m
  | some _ => .error .notAMapping

/-- The `license` property (metadata.py lines 217-221): the `license` field
of the citation table, with the empty string normalized to Python `None`
(embedded as `Option.none`). -/
def licenseProp (dm : DatasetMeta) : Except MetaErr (Option PyVal) :=
  match dm.citationMeta.lookup "license" with
  | none => .error (.missingMetadata dm.name "license")
  | some v => if v = .prim (.pstr "") then .ok none else .ok (some v)

/-- The `citation` property (metadata.py lines 223-227), same normalization
as `license`. -/
def citationProp (dm : DatasetMeta) : Except MetaErr (Option PyVal) :=
  match dm.citationMeta.lookup "citation" with
  | none => .error (.missingMetadata dm.name "citation")
  | some v => if v = .prim (.pstr "") then .ok none else .ok (some v)

/-- Lookup in a Python dictionary built by `dict(zip(ks, vs))` from possibly
repeated keys: later insertions overwrite earlier ones, so the value is the
one paired with the last occurrence of the key. -/
def dictLookup {α β : Type} [DecidableEq α] (l : List (α × β)) (k : α) :
    Option β :=
  (l.reverse.find? (fun p => decide (p.1 = k))).map Prod.snd

/-- The key coercion preserves the number of entries. -/
theorem coerceNums_length :
    ∀ {keys : List String} {nums : List Int},
      coerceNums keys = .ok nums → nums.length = keys.length := by
  intro keys
  induction keys with
  | nil => intro nums h; simp [coerceNums] at h; simp [← h]
  | cons k ks ih =>
    intro nums h
    simp only [coerceNums] at h
    cases hp : parseDecimalTrunc k with
    | none => rw [hp] at h; simp at h
    | some n =>
      rw [hp] at h
      cases hc : coerceNums ks with
      | error e => rw [hc] at h; simp [Except.map] at h
      | ok ms =>
        rw [hc] at h
        simp [Except.map] at h
        simp [← h, ih hc]

/-- `find?` returns the designated element when it is the only element
satisfying the predicate. -/
theorem find?_unique {α : Type} {p : α → Bool} {a : α} :
    ∀ {l : List α}, a ∈ l → p a = true → (∀ x ∈ l, p x = true → x = a) →
      l.find? p = some a := by
  intro l
  induction l with
  | nil => simp
  | cons h t ih =>
    intro hmem hp huniq
    by_cases hph : p h = true
    · have he : h = a := huniq h (List.mem_cons_self h t) hph
      subst he
      simp [List.find?_cons_of_pos _ hph]
    · have hat : a ∈ t := by
        rcases List.mem_cons.mp hmem with he | ht
        · subst he; exact absurd hp hph
        · exact ht
      rw [List.find?_cons_of_neg _ hph]
      exact ih hat hp (fun x hx hpx => huniq x (List.mem_cons_of_mem _ hx) hpx)

/-- Core inverse property of the two zipped dictionaries: if the value lists
are duplicate-free, any pair of `dict(zip(ks, vs))` (last-occurrence lookup)
maps back through `dict(zip(vs, ks))` to its key. -/
theorem dictLookup_zip_swap {α β : Type} [DecidableEq α] [DecidableEq β]
    {ks : List α} {vs : List β} (hlen : ks.length = vs.length)
    (hnodup : vs.Nodup) {i : α} {label : β}
    (h : dictLookup (ks.zip vs) i = some label) :
    dictLookup (vs.zip ks) label = some i := by
  unfold dictLookup at h ⊢
  cases hf : (ks.zip vs).reverse.find? (fun p => decide (p.1 = i)) with
  | none => rw [hf] at h; simp at h
  | some pr =>
    rw [hf] at h
    have h : pr.2 = label := Option.some.inj h
    have hp0 := List.find?_some hf
    have hpred : pr.1 = i := of_decide_eq_true hp0
    have hmem : pr ∈ ks.zip vs := List.mem_reverse.mp (List.mem_of_find?_eq_some hf)
    obtain ⟨n, hn, hget⟩ := List.mem_iff_getElem.mp hmem
    have hzlen : (ks.zip vs).length = ks.length := by
      rw [List.length_zip, hlen, min_self]
    have hnk : n < ks.length := by rw [← hzlen]; exact hn
    have hnv : n < vs.length := by rw [← hlen]; exact hnk
    have hzip : (ks.zip vs)[n] = (ks[n], vs[n]) := List.getElem_zip
    have hpr : pr = (ks[n], vs[n]) := hget ▸ hzip
    have hkn : ks[n] = i := by rw [hpr] at hpred; exact hpred
    have hvn : vs[n] = label := by rw [hpr] at h; exact h
    have hzlen' : (vs.zip ks).length = vs.length := by
      rw [List.length_zip, hlen, min_self]
    have hmem' : (label, i) ∈ vs.zip ks := by
      rw [List.mem_iff_getElem]
      refine ⟨n, by rw [hzlen']; exact hnv, ?_⟩
      rw [List.getElem_zip, hvn, hkn]
    have huniq : ∀ x ∈ (vs.zip ks).reverse,
        (fun p => decide (p.1 = label)) x = true → x = (label, i) := by
      intro x hx hpx
      obtain ⟨m, hm, hgx⟩ := List.mem_iff_getElem.mp (List.mem_reverse.mp hx)
      have hmv : m < vs.length := by rw [← hzlen']; exact hm
      have hmk : m < ks.length := by rw [hlen]; exact hmv
      have hx2 : x = (vs[m], ks[m]) := by rw [← List.getElem_zip, hgx]
      have hx1 : vs[m] = label := by
        have := of_decide_eq_true hpx
        rw [hx2] at this; exact this
      have hmn : m = n := hnodup.getElem_inj_iff.mp (hx1.trans hvn.symm)
      subst hmn
      rw [hx2, hvn, hkn]
    have hfind : (vs.zip ks).reverse.find? (fun p => decide (p.1 = label)) =
        some (label, i) := by
      refine find?_unique (List.mem_reverse.mpr hmem') ?_ huniq
      simp
    rw [hfind]
    simp

/-- Updating a present key makes it readable with the new value. -/
theorem lookup_updateAssoc {l : List (String × PyVal)} {k : String} (v : PyVal)
    (h : (l.lookup k).isSome = true) :
    (updateAssoc l k v).lookup k = some v := by
  induction l with
  | nil => simp [List.lookup] at h
  | cons p t ih =>
    obtain ⟨pk, pv⟩ := p
    simp only [updateAssoc, List.map_cons]
    by_cases hk : pk = k
    · subst hk
      rw [if_pos rfl]
      simp [List.lookup]
    · have hk' : (k == pk) = false := by
        simp only [beq_eq_false_iff_ne, ne_eq]
        exact fun he => hk he.symm
      rw [if_neg hk]
      simp only [List.lookup, hk'] at h ⊢
      exact ih h

/-- `isinstance(None, annotation)` never succeeds for the four concrete
annotations: `Number`, `str` and `os.PathLike` return `False`, and
`List[Number]` raises. -/
theorem isinstanceCheck_none_never_true (ty : PyType) :
    isinstanceCheck (.prim .pnone) ty ≠ .ok true := by
  cases ty <;> simp [isinstanceCheck]

/-- A sub-store field assignment never changes the stored canopy name. -/
theorem heliosSet_preserves_canopy {st st' : HeliosState} {sub : SubStore}
    {key : String} {v : PyVal} (h : heliosSet st sub key v = .ok st') :
    st'.canopy = st.canopy := by
  cases sub
  case canopy =>
    simp only [heliosSet] at h
    cases hps : psSetattr st.canopyParams key v with
    | error e => rw [hps] at h; simp [Except.map] at h
    | ok s => rw [hps] at h; simp [Except.map] at h; rw [← h]
  case camera =>
    simp only [heliosSet] at h
    cases hps : psSetattr st.cameraParams key v with
    | error e => rw [hps] at h; simp [Except.map] at h
    | ok s => rw [hps] at h; simp [Except.map] at h; rw [← h]
  case lidar =>
    simp only [heliosSet] at h
    cases hps : psSetattr st.lidarParams key v with
    | error e => rw [hps] at h; simp [Except.map] at h
    | ok s => rw [hps] at h; simp [Except.map] at h; rw [← h]

/-- A sequence of successful field mutations never changes the stored canopy
name. -/
theorem applyMuts_preserves_canopy :
    ∀ {ms : List (SubStore × String × PyVal)} {st st' : HeliosState},
      applyMuts st ms = some st' → st'.canopy = st.canopy := by
  intro ms
  induction ms with
  | nil =>
    intro st st' h
    simp only [applyMuts, Option.some.injEq] at h
    rw [← h]
  | cons m ms ih =>
    intro st st' h
    simp only [applyMuts] at h
    cases hs : heliosSet st m.1 m.2.1 m.2.2 with
    | error e => rw [hs] at h; simp at h
    | ok st1 =>
      rw [hs] at h
      exact (ih h).trans (heliosSet_preserves_canopy hs)

/-- Successful construction stores the requested canopy name. -/
theorem initializeCanopy_ok_canopy {cfg : HeliosConfig} {d : String}
    {st : HeliosState} (h : initializeCanopy cfg d = .ok st) : st.canopy = d := by
  simp only [initializeCanopy] at h
  split at h
  · cases hl : cfg.canopyDefaults.lookup d with
    | none => rw [hl] at h; simp at h
    | some dd =>
      rw [hl] at h
      dsimp only at h
      cases h1 : constructParams canopySchema dd with
      | error e => rw [h1] at h; simp at h
      | ok cp =>
        cases h2 : constructParams cameraSchema cfg.cameraDefaults with
        | error e => rw [h1, h2] at h; simp at h
        | ok cam =>
          cases h3 : constructParams lidarSchema cfg.lidarDefaults with
          | error e => rw [h1, h2, h3] at h; simp at h
          | ok lid =>
            rw [h1, h2, h3] at h
            simp only [Except.ok.injEq] at h
            rw [← h]
  · simp at h

/-- Modelled from the spec: the default canopy parameters for the
`"VSPGrapevine"` domain per the spec's concrete scenario (section 8,
`plant_spacing: 1.5`); the full default table lives in the Helios
configuration file read by `load_default_helios_configuration`, which is not
under `src/` (unlisted keywords fall back to the dataclass default `None`). -/
def vspDefaults : List (String × PyVal) :=
  [("plant_spacing", .prim (.pnum (3 / 2)))]

/-- A sealed `CanopyParameters` store constructed from the `"VSPGrapevine"`
defaults. -/
def vspStore : ParamStore :=
  match constructParams canopySchema vspDefaults with
  | .ok s => s
  | .error _ => ⟨[], []⟩

/-- A concrete Helios configuration with the single canopy type
`"VSPGrapevine"`. -/
def wCfg : HeliosConfig :=
  ⟨["VSPGrapevine"], [("VSPGrapevine", vspDefaults)], [], []⟩

/-- Fallback state used only to totalize the fixture definitions below. -/
def dummyHelios : HeliosState := ⟨"", ⟨[], []⟩, ⟨[], []⟩, ⟨[], []⟩⟩

/-- The freshly constructed `HeliosOptions` state for `"VSPGrapevine"`. -/
def wSt0 : HeliosState :=
  match initializeCanopy wCfg "VSPGrapevine" with
  | .ok s => s
  | .error _ => dummyHelios

/-- A concrete mutation sequence: set `plant_spacing` to a number. -/
def wMuts : List (SubStore × String × PyVal) :=
  [(.canopy, "plant_spacing", .prim (.pnum 2))]

/-- The mutated `HeliosOptions` state. -/
def wSt1 : HeliosState :=
  match applyMuts wSt0 wMuts with
  | some s => s
  | none => dummyHelios

/-- Modelled from the spec: the `apple_flower` source-table entry of the
spec's concrete scenario (section 8); the table contents
(`assets/public_datasources.json`, read by `load_public_sources`) are not
under `src/`. -/
def appleEntry : List (String × PyVal) :=
  [("n_images", .prim (.pstr "3000")),
   ("ml_task", .prim (.pstr "object_detection")),
   ("ag_task", .prim (.pstr "flower_counting")),
   ("location", .vdict [("continent", .mprim (.pstr "North America")),
                        ("country", .mprim (.pstr "USA"))]),
   ("stats", .vdict [("mean", .mlist [.pnum (1/2), .pnum (1/2), .pnum (1/2)]),
                     ("std", .mlist [.pnum (1/5), .pnum (1/5), .pnum (1/5)])]),
   ("classes", .vdict [("0", .mprim (.pstr "flower"))])]

/-- A citation-table entry with both fields empty. -/
def appleCitEntry : List (String × PyVal) :=
  [("license", .prim (.pstr "")), ("citation", .prim (.pstr ""))]

/-- A one-entry source table holding `apple_flower`. -/
def wSrc : SourceTable := [("apple_flower", appleEntry)]

/-- The parallel one-entry citation table. -/
def wCit : SourceTable := [("apple_flower", appleCitEntry)]

/-- The registry constructed from `wSrc`/`wCit` for `apple_flower`. -/
def appleMeta : DatasetMeta := ⟨"apple_flower", appleEntry, appleCitEntry⟩

/-- Modelled from the spec: a source-table entry whose `classes` attribute
contains nested groupings (the grouped variant of the class mapping, spec
sections 4.1 and 6). -/
def grapeEntry : List (String × PyVal) :=
  [("n_images", .prim (.pstr "100")),
   ("classes", .vdict [("grape_types", .mdict [("0", .pstr "chardonnay")])])]

/-- A citation-table entry for the grouped-classes dataset. -/
def grapeCitEntry : List (String × PyVal) :=
  [("license", .prim (.pstr "MIT")), ("citation", .prim (.pstr ""))]

/-- A one-entry source table holding the grouped-classes dataset. -/
def grapeSrc : SourceTable := [("grape_detection", grapeEntry)]

/-- The parallel citation table. -/
def grapeCit : SourceTable := [("grape_detection", grapeCitEntry)]

/-- The registry constructed from `grapeSrc`/`grapeCit`. -/
def grapeMeta : DatasetMeta := ⟨"grape_detection", grapeEntry, grapeCitEntry⟩

/-- A flat classes mapping with two entries carrying the same label. -/
def dupClasses : List (String × PyMid) :=
  [("0", .mprim (.pstr "weed")), ("1", .mprim (.pstr "weed"))]

/-- `num_to_class` of `dupClasses` as a zipped pair list. -/
def dupN2C : List (Int × PyMid) :=
  [(0, .mprim (.pstr "weed")), (1, .mprim (.pstr "weed"))]

/-- `class_to_num` of `dupClasses` as a zipped pair list. -/
def dupC2N : List (PyMid × Int) :=
  [(.mprim (.pstr "weed"), 0), (.mprim (.pstr "weed"), 1)]

/-- A flat classes mapping with distinct labels. -/
def flatClasses : List (String × PyMid) :=
  [("0", .mprim (.pstr "crop")), ("1", .mprim (.pstr "weed"))]

/-- A source table whose only key is one edit away from a requested name. -/
def nearSrc : SourceTable := [("apl", [])]

/-- C1: the claimed assignment behavior fails on the list-typed fields of the
sealed store.  `stem_color` is declared `List[Number]`, yet assigning a list
of numbers — a value of exactly the declared type — raises a `TypeError` from
`isinstance` (subscripted generics cannot be used with instance checks)
instead of succeeding and being readable, so the acceptance path is
unreachable for every `List[Number]` field. -/
theorem c1_matching_list_assignment_raises :
    vspStore.schema.lookup "stem_color" = some PyType.listNumber ∧
    psSetattr vspStore "stem_color"
        (.vlist [.pnum (1/2), .pnum (1/2), .pnum (1/2)]) =
      .error (.subscriptedGenericTypeError "stem_color") :=
  ⟨rfl, rfl⟩

/-- C2: for a dataset whose `classes` attribute contains a nested grouping,
registry construction succeeds with the right name, but the `num_to_class`
accessor raises: metadata.py line 183 evaluates `class_type.keys()` on the
string key of the first dictionary-valued grouping (`AttributeError: str
object has no attribute keys`), so not every derived property resolves
without error.  The parallel `class_to_num` branch (line 198) is written
correctly and succeeds on the same entry. -/
theorem c2_nested_classes_num_to_class_raises :
    loadSourceInfo grapeSrc grapeCit "grape_detection" = .ok grapeMeta ∧
    grapeMeta.name = "grape_detection" ∧
    numToClassProp grapeMeta = .error (.strHasNoKeys "grape_types") ∧
    classToNumProp grapeMeta =
      .ok (.grouped [("grape_types", .dict [(.pstr "chardonnay", 0)])]) :=
  ⟨rfl, rfl, rfl, rfl⟩

/-- C3 counterexample: on a flat classes mapping carrying the same label for
two indices, `dict(zip(...))` overwrites the earlier entry, so the pair
`(0, weed)` of `num_to_class` maps through `class_to_num` to `1`, not `0` —
the mappings are not mutually inverse as claimed. -/
theorem c3_duplicate_labels_counterexample :
    numToClassOfMapping dupClasses = .ok (.flat dupN2C) ∧
    classToNumOfMapping dupClasses = .ok (.flat dupC2N) ∧
    ¬ (∀ (i : Int) (label : PyMid),
        dictLookup dupN2C i = some label → dictLookup dupC2N label = some i) := by
  refine ⟨rfl, rfl, fun hall => ?_⟩
  have h0 : dictLookup dupN2C 0 = some (.mprim (.pstr "weed")) := rfl
  have h1 := hall 0 (.mprim (.pstr "weed")) h0
  have h2 : dictLookup dupC2N (.mprim (.pstr "weed")) = some 1 := rfl
  rw [h1] at h2
  exact absurd (Option.some.inj h2) (by decide)

/-- C3 (amended): for a dataset whose `classes` mapping is flat, whose keys
all coerce, and whose labels are pairwise distinct, `num_to_class` and
`class_to_num` are mutually inverse: every pair `(i, label)` of the former
looks up through the latter back to `i`. -/
theorem c3_flat_nodup_inverse (m : List (String × PyMid)) (nums : List Int)
    (hflat : hasNestedDicts m = false)
    (hnums : coerceNums (m.map Prod.fst) = .ok nums)
    (hnodup : (m.map Prod.snd).Nodup) :
    numToClassOfMapping m = .ok (.flat (nums.zip (m.map Prod.snd))) ∧
    classToNumOfMapping m = .ok (.flat ((m.map Prod.snd).zip nums)) ∧
    ∀ (i : Int) (label : PyMid),
      dictLookup (nums.zip (m.map Prod.snd)) i = some label →
      dictLookup ((m.map Prod.snd).zip nums) label = some i := by
  have hlen : nums.length = (m.map Prod.snd).length := by
    rw [coerceNums_length hnums, List.length_map, List.length_map]
  refine ⟨?_, ?_, ?_⟩
  · simp [numToClassOfMapping, hflat, hnums, Except.map]
  · simp [classToNumOfMapping, hflat, hnums, Except.map]
  · intro i label h
    exact dictLookup_zip_swap hlen hnodup h

/-- Witness for the amended C3 on a concrete flat two-class mapping. -/
theorem c3_flat_nodup_inverse_witness :
    (hasNestedDicts flatClasses = false ∧
     coerceNums (flatClasses.map Prod.fst) = .ok [0, 1] ∧
     (flatClasses.map Prod.snd).Nodup) ∧
    (numToClassOfMapping flatClasses =
        .ok (.flat (([0, 1] : List Int).zip (flatClasses.map Prod.snd))) ∧
     classToNumOfMapping flatClasses =
        .ok (.flat ((flatClasses.map Prod.snd).zip ([0, 1] : List Int))) ∧
     ∀ (i : Int) (label : PyMid),
       dictLookup (([0, 1] : List Int).zip (flatClasses.map Prod.snd)) i =
           some label →
       dictLookup ((flatClasses.map Prod.snd).zip ([0, 1] : List Int)) label =
           some i) :=
  ⟨⟨rfl, rfl, by decide⟩,
   c3_flat_nodup_inverse flatClasses [0, 1] rfl rfl (by decide)⟩

/-- C4: after construction from a valid domain and any finite sequence of
successful field mutations on the three sub-stores, `reset()` rebuilds all
three sub-stores from the same configuration and domain, yielding exactly
the freshly constructed state. -/
theorem c4_reset_restores_defaults (cfg : HeliosConfig) (d : String)
    (st0 st1 : HeliosState) (ms : List (SubStore × String × PyVal))
    (h0 : initializeCanopy cfg d = .ok st0)
    (h1 : applyMuts st0 ms = some st1) :
    heliosReset cfg st1 = .ok st0 := by
  have hc : st1.canopy = d :=
    (applyMuts_preserves_canopy h1).trans (initializeCanopy_ok_canopy h0)
  unfold heliosReset
  rw [hc, h0]

/-- Witness for C4 on the concrete `"VSPGrapevine"` configuration with a
successful `plant_spacing` mutation. -/
theorem c4_reset_restores_defaults_witness :
    (initializeCanopy wCfg "VSPGrapevine" = .ok wSt0 ∧
     applyMuts wSt0 wMuts = some wSt1) ∧
    heliosReset wCfg wSt1 = .ok wSt0 :=
  ⟨⟨rfl, rfl⟩,
   c4_reset_restores_defaults wCfg "VSPGrapevine" wSt0 wSt1 wMuts rfl rfl⟩

/-- C5: when a name is absent from the source table but its underscored form
is present (and covered by the citation table), construction with the
hyphenated name succeeds through the fallback and yields the same registry —
same canonical name, attribute table and citation table — as construction
with the underscored name, and `__eq__` between the two returns `True`. -/
theorem c5_hyphen_fallback_equals_underscored (src cit : SourceTable)
    (name : String) (entry centry : List (String × PyVal))
    (h1 : src.lookup name = none)
    (h2 : src.lookup (underscoreName name) = some entry)
    (h3 : cit.lookup (underscoreName name) = some centry) :
    loadSourceInfo src cit name = .ok ⟨underscoreName name, entry, centry⟩ ∧
    loadSourceInfo src cit (underscoreName name) =
      .ok ⟨underscoreName name, entry, centry⟩ ∧
    metaEqPy ⟨underscoreName name, entry, centry⟩
      (.dmeta ⟨underscoreName name, entry, centry⟩) = true := by
  refine ⟨?_, ?_, ?_⟩
  · simp [loadSourceInfo, h1, h2, h3]
  · simp [loadSourceInfo, h2, h3]
  · simp [metaEqPy]

/-- Witness for C5: `apple-flower` resolves to the `apple_flower` entry. -/
theorem c5_hyphen_fallback_witness :
    (wSrc.lookup "apple-flower" = none ∧
     wSrc.lookup (underscoreName "apple-flower") = some appleEntry ∧
     wCit.lookup (underscoreName "apple-flower") = some appleCitEntry) ∧
    (loadSourceInfo wSrc wCit "apple-flower" =
        .ok ⟨underscoreName "apple-flower", appleEntry, appleCitEntry⟩ ∧
     loadSourceInfo wSrc wCit (underscoreName "apple-flower") =
        .ok ⟨underscoreName "apple-flower", appleEntry, appleCitEntry⟩ ∧
     metaEqPy ⟨underscoreName "apple-flower", appleEntry, appleCitEntry⟩
       (.dmeta ⟨underscoreName "apple-flower", appleEntry, appleCitEntry⟩) =
         true) :=
  ⟨⟨rfl, rfl, rfl⟩,
   c5_hyphen_fallback_equals_underscored wSrc wCit "apple-flower"
     appleEntry appleCitEntry rfl rfl rfl⟩

/-- C6: when a name is absent from the source table even after
hyphen-to-underscore normalization, construction fails with the
invalid-source error carrying the fuzzy suggestion list, and whenever some
known name is within edit distance 1 of the request the list is nonempty and
contains only known names. -/
theorem c6_invalid_name_error_with_suggestions (src cit : SourceTable)
    (name k : String)
    (h1 : src.lookup name = none)
    (h2 : src.lookup (underscoreName name) = none)
    (hk : k ∈ src.map Prod.fst)
    (hd : editDist name.data k.data ≤ 1) :
    loadSourceInfo src cit name =
      .error (.invalidName name (maybeYouMeant name (src.map Prod.fst))) ∧
    maybeYouMeant name (src.map Prod.fst) ≠ [] ∧
    ∀ s ∈ maybeYouMeant name (src.map Prod.fst), s ∈ src.map Prod.fst := by
  refine ⟨?_, ?_, ?_⟩
  · simp [loadSourceInfo, h1, h2]
  · have hmem : k ∈ maybeYouMeant name (src.map Prod.fst) := by
      simp only [maybeYouMeant]
      rw [List.mem_filter]
      refine ⟨hk, ?_⟩
      exact decide_eq_true (by omega)
    intro he
    rw [he] at hmem
    exact List.not_mem_nil k hmem
  · intro s hs
    simp only [maybeYouMeant] at hs
    exact (List.mem_filter.mp hs).1

/-- Witness for C6: requesting `apls` against a table whose only key `apl`
is one edit away. -/
theorem c6_invalid_name_witness :
    (nearSrc.lookup "apls" = none ∧
     nearSrc.lookup (underscoreName "apls") = none ∧
     "apl" ∈ nearSrc.map Prod.fst ∧
     editDist "apls".data "apl".data ≤ 1) ∧
    (loadSourceInfo nearSrc ([] : SourceTable) "apls" =
        .error (.invalidName "apls" (maybeYouMeant "apls" (nearSrc.map Prod.fst))) ∧
     maybeYouMeant "apls" (nearSrc.map Prod.fst) ≠ [] ∧
     ∀ s ∈ maybeYouMeant "apls" (nearSrc.map Prod.fst),
       s ∈ nearSrc.map Prod.fst) :=
  ⟨⟨rfl, rfl, by decide, by decide⟩,
   c6_invalid_name_error_with_suggestions nearSrc ([] : SourceTable)
     "apls" "apl" rfl rfl (by decide) (by decide)⟩

/-- C7 counterexample: with the resolved name valid in the main table but
absent from the citation table, construction does not succeed with an
empty-defaulted citation table — the plain dictionary lookup
`load_citation_sources()[name]` at metadata.py line 114 raises a bare
`KeyError` instead. -/
theorem c7_missing_citation_entry_raises :
    loadSourceInfo wSrc ([] : SourceTable) "apple_flower" =
      .error (.citationKeyError "apple_flower") := rfl

/-- C7 (amended): whenever the resolved name is present in the source table
and absent from the citation table, construction fails with the bare
`KeyError` of the citation lookup; no per-field defaulting occurs and no
registry object is produced. -/
theorem c7_missing_citation_raises_keyerror (src cit : SourceTable)
    (name : String) (entry : List (String × PyVal))
    (h1 : src.lookup name = some entry)
    (h2 : cit.lookup name = none) :
    loadSourceInfo src cit name = .error (.citationKeyError name) := by
  simp [loadSourceInfo, h1, h2]

/-- Witness for the amended C7 on the grouped-classes fixture with an empty
citation table. -/
theorem c7_missing_citation_witness :
    (grapeSrc.lookup "grape_detection" = some grapeEntry ∧
     ([] : SourceTable).lookup "grape_detection" = none) ∧
    loadSourceInfo grapeSrc ([] : SourceTable) "grape_detection" =
      .error (.citationKeyError "grape_detection") :=
  ⟨⟨rfl, rfl⟩,
   c7_missing_citation_raises_keyerror grapeSrc ([] : SourceTable)
     "grape_detection" grapeEntry rfl rfl⟩

/-- C8: a dataset whose `license` (respectively `citation`) field in the
citation table is the empty string gets `None` — never the empty string —
from the corresponding property. -/
theorem c8_empty_fields_return_none (dm : DatasetMeta) :
    (dm.citationMeta.lookup "license" = some (.prim (.pstr "")) →
      licenseProp dm = .ok none) ∧
    (dm.citationMeta.lookup "citation" = some (.prim (.pstr "")) →
      citationProp dm = .ok none) := by
  constructor
  · intro h; simp [licenseProp, h]
  · intro h; simp [citationProp, h]

/-- Witness for C8 on the `apple_flower` registry, whose citation entry has
both fields empty. -/
theorem c8_empty_fields_witness :
    (appleMeta.citationMeta.lookup "license" = some (.prim (.pstr "")) ∧
     licenseProp appleMeta = .ok none) ∧
    (appleMeta.citationMeta.lookup "citation" = some (.prim (.pstr "")) ∧
     citationProp appleMeta = .ok none) :=
  ⟨⟨rfl, (c8_empty_fields_return_none appleMeta).1 rfl⟩,
   ⟨rfl, (c8_empty_fields_return_none appleMeta).2 rfl⟩⟩

/-- C9: registry equality holds only between registry instances — comparing
against any non-registry value returns `False` without raising, including
the plain string equal to the registry's own canonical name, even though
`__str__` and `__repr__` both render exactly that name; between two registry
instances the comparison is name equality. -/
theorem c9_eq_false_for_non_registry (m m' : DatasetMeta) (v : PyVal) :
    metaEqPy m (.raw v) = false ∧
    metaStr m = m.name ∧
    metaRepr m = m.name ∧
    metaEqPy m (.raw (.prim (.pstr (metaStr m)))) = false ∧
    metaEqPy m (.dmeta m') = (m.name == m'.name) :=
  ⟨rfl, rfl, rfl, rfl, rfl⟩

/-- C10: on a sealed store, assigning `None` to a field with any of the four
concrete declared types always raises a Python `TypeError` (the descriptive
mismatch for `Number`/`str`/`os.PathLike` fields, the subscripted-generics
`TypeError` for `List[Number]` fields), and a successful post-seal assignment
never stores `None` — the unset state can only come from construction or
reset. -/
theorem c10_none_assignment_rejected (s : ParamStore) (key : String)
    (ty : PyType)
    (h1 : (s.values.lookup key).isSome = true)
    (h2 : s.schema.lookup key = some ty) :
    (∃ e, psSetattr s key (.prim .pnone) = .error e ∧ e.isTypeError = true) ∧
    (∀ (v : PyVal) (s' : ParamStore), psSetattr s key v = .ok s' →
      v ≠ .prim .pnone ∧ s'.values.lookup key = some v) := by
  obtain ⟨w, hw⟩ := Option.isSome_iff_exists.mp h1
  constructor
  · cases ty
    case number =>
      exact ⟨.typeMismatch key, by simp [psSetattr, hw, h2, isinstanceCheck], rfl⟩
    case pstr =>
      exact ⟨.typeMismatch key, by simp [psSetattr, hw, h2, isinstanceCheck], rfl⟩
    case listNumber =>
      exact ⟨.subscriptedGenericTypeError key,
        by simp [psSetattr, hw, h2, isinstanceCheck], rfl⟩
    case pathLike =>
      exact ⟨.typeMismatch key, by simp [psSetattr, hw, h2, isinstanceCheck], rfl⟩
  · intro v s' hok
    simp only [psSetattr, hw, h2] at hok
    cases hchk : isinstanceCheck v ty with
    | error e => rw [hchk] at hok; simp at hok
    | ok b =>
      cases b with
      | false => rw [hchk] at hok; simp at hok
      | true =>
        rw [hchk] at hok
        simp only [Except.ok.injEq] at hok
        constructor
        · intro hv
          subst hv
          exact isinstanceCheck_none_never_true ty hchk
        · rw [← hok]
          exact lookup_updateAssoc v h1

/-- Witness for C10 at the `plant_spacing` field of the sealed
`"VSPGrapevine"` store. -/
theorem c10_none_assignment_witness :
    ((vspStore.values.lookup "plant_spacing").isSome = true ∧
     vspStore.schema.lookup "plant_spacing" = some PyType.number) ∧
    ((∃ e, psSetattr vspStore "plant_spacing" (.prim .pnone) = .error e ∧
        e.isTypeError = true) ∧
     (∀ (v : PyVal) (s' : ParamStore),
        psSetattr vspStore "plant_spacing" v = .ok s' →
        v ≠ .prim .pnone ∧ s'.values.lookup "plant_spacing" = some v)) :=
  ⟨⟨rfl, rfl⟩,
   c10_none_assignment_rejected vspStore "plant_spacing" PyType.number rfl rfl⟩
